import Mathlib

/-!
Shallow embedding of lieu's dedupe module (src/lib/lieu/dedupe.py) and proofs
about its address/venue duplicate-decision logic and blocking-key generation.

External collaborators (libpostal's expand_address, the geohash library, the
double-metaphone phonetic encoder and the TF-IDF similarity model) are pure
functions supplied by the environment; they are passed as explicit parameters,
matching the specification's capability-interface view of them.

Python conventions mapped to Lean:
  a record field that may be absent is an Option;
  Python truthiness of an optional string (None and the empty string are
    falsy) is the function truthy;
  the three-valued decision None / True / False is Option Bool, with none
    standing for the Indeterminate decision.
-/

/-- Component-type tags, one per libpostal address_components constant used by
the module (ADDRESS_NAME, ADDRESS_STREET, ADDRESS_UNIT, ADDRESS_LEVEL,
ADDRESS_HOUSE_NUMBER). -/
inductive ComponentType
  | address_name
  | address_street
  | address_unit
  | address_level
  | address_house_number
deriving DecidableEq, Repr

/-- The expand_address collaborator: a component value and a component type to
the list of normalized expansions. -/
abbrev Expand := String → ComponentType → List String

/-- The geohash collaborator: encode is full-precision encoding of a
latitude/longitude pair (the module truncates the result itself), neighbors
lists the adjacent cells of a cell id. -/
structure GeoHasher where
  encode : Rat → Rat → String
  neighbors : String → List String

/-- An address record: the fixed component-key set; a missing key is none. -/
structure AddressRecord where
  name : Option String
  house_number : Option String
  street : Option String
  unit : Option String
  floor : Option String
  latitude : Option Rat
  longitude : Option Rat

/-- Three-valued dupe decision: none is Indeterminate, some true / some false
are the definite outcomes, exactly as the module returns None / True / False. -/
abbrev DupeDecision := Option Bool

/-- Python truthiness of an optional string: None and the empty string are
falsy, everything else truthy. -/
def truthy : Option String → Bool
  | none => false
  | some s => !s.isEmpty

/-- whitespace_regex.sub applied with the empty replacement: remove every
whitespace character from the string. -/
def stripWhitespace (s : String) : String :=
  String.mk (s.data.filter fun c => !c.isWhitespace)

/-- Non-empty intersection test on the two expansion collections
(len(set1 & set2) > 0). -/
def intersects (l1 l2 : List String) : Bool :=
  l1.any fun x => l2.any fun y => x == y

/-- Modelled from the spec: lieu.floats.isclose is imported from a module that
is not under src/; the specification describes the coordinate guard as the
sentinel test "(lat, lon) is not the sentinel (0, 0)", so closeness of the
embedded rational coordinates is modelled as exact equality. -/
def isclose (a b : Rat) : Bool := a == b

def AddressDeduper.DEFAULT_GEOHASH_PRECISION : Nat := 7

/-- AddressDeduper.component_equals: expand both values with the given
component type; with no_whitespace (the default) strip all whitespace from
every expansion; return whether the two expansion sets intersect. -/
def AddressDeduper.component_equals (expand : Expand) (c1 c2 : String)
    (component : ComponentType) (no_whitespace : Bool) : Bool :=
  let expansions1 := expand c1 component
  let expansions2 := expand c2 component
  let set_expansions1 := if !no_whitespace then expansions1
    else expansions1.map stripWhitespace
  let set_expansions2 := if !no_whitespace then expansions2
    else expansions2.map stripWhitespace
  intersects set_expansions1 set_expansions2

/-- AddressDeduper.is_address_dupe: None unless both records have truthy
street and house_number; otherwise the boolean conjunction of
component_equals on the streets and on the house numbers. -/
def AddressDeduper.is_address_dupe (expand : Expand) (a1 a2 : AddressRecord) :
    DupeDecision :=
  if !truthy a1.street || !truthy a2.street
      || !truthy a1.house_number || !truthy a2.house_number then
    none
  else
    let same_street := AddressDeduper.component_equals expand
      (a1.street.getD "") (a2.street.getD "") ComponentType.address_street true
    let same_house_number := AddressDeduper.component_equals expand
      (a1.house_number.getD "") (a2.house_number.getD "")
      ComponentType.address_house_number true
    some (same_street && same_house_number)

/-- One iteration of the loop in is_sub_building_dupe, for a single
(unit or floor) field pair. -/
def AddressDeduper.sub_building_field (expand : Expand) (f1 f2 : Option String)
    (component : ComponentType) : Bool :=
  if truthy f1 && truthy f2 then
    AddressDeduper.component_equals expand (f1.getD "") (f2.getD "") component true
  else if truthy f1 || truthy f2 then
    false
  else
    true

/-- AddressDeduper.is_sub_building_dupe: the unit fields and the floor fields
must each pass sub_building_field. -/
def AddressDeduper.is_sub_building_dupe (expand : Expand) (a1 a2 : AddressRecord) :
    Bool :=
  AddressDeduper.sub_building_field expand a1.unit a2.unit ComponentType.address_unit
    && AddressDeduper.sub_building_field expand a1.floor a2.floor
        ComponentType.address_level

/-- AddressDeduper.is_dupe: Python and-chaining of is_address_dupe (three
valued) with the optional sub-building check. -/
def AddressDeduper.is_dupe (expand : Expand) (a1 a2 : AddressRecord)
    (with_unit : Bool) : DupeDecision :=
  match AddressDeduper.is_address_dupe expand a1 a2 with
  | none => none
  | some false => some false
  | some true =>
    some (!with_unit || AddressDeduper.is_sub_building_dupe expand a1 a2)

/-- AddressDeduper.component_expansions: an empty tuple unless the record has
truthy street and house_number, otherwise (street expansions, house-number
expansions). A tuple of expansion lists is embedded as a list of lists. -/
def AddressDeduper.component_expansions (expand : Expand)
    (address : AddressRecord) : List (List String) :=
  if !(truthy address.street && truthy address.house_number) then []
  else
    [expand (address.street.getD "") ComponentType.address_street,
     expand (address.house_number.getD "") ComponentType.address_house_number]

/-- itertools.product over a list of dimensions, in Python order (rightmost
dimension varies fastest). -/
def listProduct : List (List String) → List (List String)
  | [] => [[]]
  | l :: ls => l.flatMap fun x => (listProduct ls).map fun t => x :: t

/-- Body shared by AddressDeduper.near_dupe_hashes and the inherited
VenueDeduper call: the cls.component_expansions dispatch is the compExp
parameter. The generator is embedded as the list of the keys it yields. -/
def near_dupe_hashes_generic (compExp : AddressRecord → List (List String))
    (gh : GeoHasher) (address : AddressRecord) (geohash_precision : Nat) :
    List String :=
  let address_expansions := compExp address
  match address.latitude, address.longitude with
  | some lat, some lon =>
    if (isclose lat 0 && isclose lon 0) || decide (lat ≥ 90) || decide (lat ≤ -90)
        || !(address_expansions.any fun l => !l.isEmpty) then
      []
    else
      let geo := (gh.encode lat lon).take geohash_precision
      let geohash_neighbors := geo :: gh.neighbors geo
      (listProduct (geohash_neighbors :: address_expansions)).map
        fun keys => String.intercalate "|" keys
  | _, _ => []

/-- AddressDeduper.near_dupe_hashes with an explicit geohash_precision
argument. -/
def AddressDeduper.near_dupe_hashes (gh : GeoHasher) (expand : Expand)
    (address : AddressRecord) (geohash_precision : Nat) : List String :=
  near_dupe_hashes_generic (AddressDeduper.component_expansions expand) gh
    address geohash_precision

/-- AddressDeduper.near_dupe_hashes called without a geohash_precision
argument: Python evaluated the default expression once, in the AddressDeduper
class body, so the stored default is AddressDeduper.DEFAULT_GEOHASH_PRECISION. -/
def AddressDeduper.near_dupe_hashes_default (gh : GeoHasher) (expand : Expand)
    (address : AddressRecord) : List String :=
  AddressDeduper.near_dupe_hashes gh expand address
    AddressDeduper.DEFAULT_GEOHASH_PRECISION

def NameDeduper.default_dupe_threshold : Rat := 9 / 10

/-- Python str.lower(), character by character. -/
def lowercase (s : String) : String :=
  String.mk (s.data.map Char.toLower)

/-- Helper for tokenize: split a character list on whitespace runs, dropping
empty pieces; acc holds the current token's characters in reverse. -/
def tokenizeAux : List Char → List Char → List String
  | acc, [] => if acc.isEmpty then [] else [String.mk acc.reverse]
  | acc, c :: cs =>
    if c.isWhitespace then
      (if acc.isEmpty then [] else [String.mk acc.reverse]) ++ tokenizeAux [] cs
    else
      tokenizeAux (c :: acc) cs

/-- NameDeduper.tokenize: Python str.split() with no argument, splitting on
whitespace runs and dropping empty pieces. -/
def NameDeduper.tokenize (s : String) : List String :=
  tokenizeAux [] s.data

/-- paren_regex.sub of the empty string: the greedy pattern matches from the
first opening parenthesis to the last closing parenthesis after it, and that
span is removed (the source pattern, on newline-free inputs). -/
def NameDeduper.paren_sub (s : String) : String :=
  let cs := s.data
  match cs.findIdx? (fun c => c == '('), cs.reverse.findIdx? (fun c => c == ')') with
  | some i, some jr =>
    let j := cs.length - 1 - jr
    if i < j then String.mk (cs.take i ++ cs.drop (j + 1)) else s
  | _, _ => s

/-- NameDeduper.content_tokens as written in the source: when
ignore_parentheticals is set, the parenthetical-stripped string is bound to a
local that the function never reads, and the return value tokenizes the
lower-cased original string. The class attribute ignore_parentheticals is the
Bool parameter. -/
def NameDeduper.content_tokens (ignore_parentheticals : Bool) (s : String) :
    List String :=
  let tokens := if ignore_parentheticals then NameDeduper.paren_sub s else s
  NameDeduper.tokenize (lowercase s)

/-- Modelled from the spec: the documented content_tokens behaviour,
"lower-case; if configured, remove parenthetical substrings first; then
tokenize", which the source's dead assignment fails to implement. -/
def NameDeduper.content_tokens_spec (ignore_parentheticals : Bool) (s : String) :
    List String :=
  let t := if ignore_parentheticals then NameDeduper.paren_sub s else s
  NameDeduper.tokenize (lowercase t)

def VenueDeduper.DEFAULT_GEOHASH_PRECISION : Nat := 6

/-- VenueDeduper.is_exact_name_dupe: component_equals with the name component
type. -/
def VenueDeduper.is_exact_name_dupe (expand : Expand) (name1 name2 : String) :
    Bool :=
  AddressDeduper.component_equals expand name1 name2 ComponentType.address_name true

/-- VenueDeduper.name_word_hashes: expand the name, tokenize each expansion,
represent each token by its non-null double-metaphone codes when any exist and
by the literal token otherwise, and take the union. The dm parameter embeds
double_metaphone composed with safe_encode; the Python set is embedded as a
duplicate-free list. -/
def VenueDeduper.name_word_hashes (expand : Expand)
    (dm : String → List (Option String)) (name : String) : List String :=
  ((expand name ComponentType.address_name).flatMap fun n =>
    (NameDeduper.tokenize n).flatMap fun t =>
      let dmcodes := (dm t).filterMap id
      if dmcodes.isEmpty then [t] else dmcodes).dedup

/-- VenueDeduper.component_expansions: empty unless the record has a truthy
name and the superclass expansions are non-empty; otherwise the name-word-hash
set is prepended as an extra blocking dimension. -/
def VenueDeduper.component_expansions (expand : Expand)
    (dm : String → List (Option String)) (address : AddressRecord) :
    List (List String) :=
  if !truthy address.name then []
  else
    let expansions := AddressDeduper.component_expansions expand address
    if expansions.isEmpty then []
    else
      VenueDeduper.name_word_hashes expand dm (address.name.getD "") :: expansions

/-- near_dupe_hashes as invoked on VenueDeduper: the inherited body with the
overridden cls.component_expansions. -/
def VenueDeduper.near_dupe_hashes (gh : GeoHasher) (expand : Expand)
    (dm : String → List (Option String)) (address : AddressRecord)
    (geohash_precision : Nat) : List String :=
  near_dupe_hashes_generic (VenueDeduper.component_expansions expand dm) gh
    address geohash_precision

/-- VenueDeduper.near_dupe_hashes called without a geohash_precision argument:
VenueDeduper inherits the method object unchanged from AddressDeduper, whose
stored default is AddressDeduper.DEFAULT_GEOHASH_PRECISION (Python evaluates a
default argument at function-definition time); the class attribute
VenueDeduper.DEFAULT_GEOHASH_PRECISION is never read by it. -/
def VenueDeduper.near_dupe_hashes_default (gh : GeoHasher) (expand : Expand)
    (dm : String → List (Option String)) (address : AddressRecord) :
    List String :=
  VenueDeduper.near_dupe_hashes gh expand dm address
    AddressDeduper.DEFAULT_GEOHASH_PRECISION

/-- VenueDeduper.is_dupe. The tfidf parameter embeds the optional TF-IDF
model together with NameDeduper.compare_in_memory: when present it maps the
two token lists to the similarity score. NameDeduper's own
ignore_parentheticals configuration is False, hence content_tokens false. -/
def VenueDeduper.is_dupe (expand : Expand) (a1 a2 : AddressRecord)
    (tfidf : Option (List String → List String → Rat))
    (name_dupe_threshold : Rat) (with_unit : Bool) : DupeDecision :=
  let a1_name := a1.name.getD ""
  let a2_name := a2.name.getD ""
  if !truthy a1.name || !truthy a2.name then none
  else
    match AddressDeduper.is_address_dupe expand a1 a2 with
    | none => none
    | some false => some false
    | some true =>
      if with_unit && !AddressDeduper.is_sub_building_dupe expand a1 a2 then
        some false
      else
        let same_name := VenueDeduper.is_exact_name_dupe expand a1_name a2_name
        let same_name :=
          match tfidf with
          | some model =>
            if !same_name then
              decide (model (NameDeduper.content_tokens false a1_name)
                (NameDeduper.content_tokens false a2_name) ≥ name_dupe_threshold)
            else same_name
          | none => same_name
        some same_name

/-! Concrete collaborators and records used by the witness theorems. -/

/-- A concrete GeoHasher for witnesses: a fixed 12-character full-precision
code and 8 distinct neighbors per cell. -/
def ghW : GeoHasher :=
  { encode := fun _ _ => "abcdefgh9012",
    neighbors := fun g => [g ++ "n", g ++ "s", g ++ "e", g ++ "w",
      g ++ "p", g ++ "q", g ++ "r", g ++ "t"] }

/-- A concrete Expander for witnesses: the identity form only. -/
def expandW : Expand := fun c _ => [c]

/-- A concrete phonetic encoder for witnesses: one non-null code per token
plus a null secondary code. -/
def dmW : String → List (Option String) := fun t => [some ("D" ++ t), none]

/-- A fully populated venue record for witnesses. -/
def recW : AddressRecord :=
  { name := some "Cafe Luna", house_number := some "12", street := some "Main St",
    unit := none, floor := none, latitude := some 10, longitude := some 20 }

/-- A record with coordinates and house number but no street. -/
def recNoStreet : AddressRecord :=
  { name := some "Cafe Luna", house_number := some "12", street := none,
    unit := none, floor := none, latitude := some 10, longitude := some 20 }

/-- A record with an empty-string name. -/
def recEmptyName : AddressRecord :=
  { name := some "", house_number := some "12", street := some "Main St",
    unit := none, floor := none, latitude := some 10, longitude := some 20 }

/-- A record at the excluded latitude 90. -/
def recLat90 : AddressRecord :=
  { name := some "Cafe Luna", house_number := some "12", street := some "Main St",
    unit := none, floor := none, latitude := some 90, longitude := some 20 }

/-- C1: if either record's name component is missing or empty,
VenueDeduper.is_dupe returns Indeterminate (none), regardless of the
expander, the addresses, the similarity model, the threshold and the
with_unit flag: the emptiness check precedes any address comparison. -/
theorem C1_venue_is_dupe_indeterminate_on_empty_name (expand : Expand)
    (a1 a2 : AddressRecord) (tfidf : Option (List String → List String → Rat))
    (thr : Rat) (with_unit : Bool)
    (h : truthy a1.name = false ∨ truthy a2.name = false) :
    VenueDeduper.is_dupe expand a1 a2 tfidf thr with_unit = none := by
  rcases h with h | h <;> simp [VenueDeduper.is_dupe, h]

theorem C1_witness :
    VenueDeduper.is_dupe expandW recEmptyName recW none (9 / 10) false = none :=
  C1_venue_is_dupe_indeterminate_on_empty_name expandW recEmptyName recW none
    (9 / 10) false (Or.inl (by decide))

/-- C2: for records with truthy names, an Indeterminate is_address_dupe
forces VenueDeduper.is_dupe to be Indeterminate, whatever the names are. -/
theorem C2_indeterminate_address_propagates (expand : Expand)
    (a1 a2 : AddressRecord) (tfidf : Option (List String → List String → Rat))
    (thr : Rat) (with_unit : Bool)
    (h1 : truthy a1.name = true) (h2 : truthy a2.name = true)
    (haddr : AddressDeduper.is_address_dupe expand a1 a2 = none) :
    VenueDeduper.is_dupe expand a1 a2 tfidf thr with_unit = none := by
  simp [VenueDeduper.is_dupe, h1, h2, haddr]

theorem C2_witness :
    VenueDeduper.is_dupe expandW recNoStreet recNoStreet none (9 / 10) false = none :=
  C2_indeterminate_address_propagates expandW recNoStreet recNoStreet none
    (9 / 10) false (by decide) (by decide) (by decide)

/-- C3: is_address_dupe is Indeterminate (none) whenever any of the four
street and house-number components is missing or empty, and otherwise is the
plain boolean conjunction of component_equals on the street components and on
the house-number components. -/
theorem C3_is_address_dupe_characterization (expand : Expand)
    (a1 a2 : AddressRecord) :
    ((truthy a1.street = false ∨ truthy a2.street = false
        ∨ truthy a1.house_number = false ∨ truthy a2.house_number = false) →
      AddressDeduper.is_address_dupe expand a1 a2 = none)
    ∧ (truthy a1.street = true → truthy a2.street = true →
        truthy a1.house_number = true → truthy a2.house_number = true →
        AddressDeduper.is_address_dupe expand a1 a2 =
          some (AddressDeduper.component_equals expand (a1.street.getD "")
              (a2.street.getD "") ComponentType.address_street true
            && AddressDeduper.component_equals expand (a1.house_number.getD "")
              (a2.house_number.getD "") ComponentType.address_house_number true)) := by
  constructor
  · intro h
    rcases h with h | h | h | h <;> simp [AddressDeduper.is_address_dupe, h]
  · intro h1 h2 h3 h4
    simp [AddressDeduper.is_address_dupe, h1, h2, h3, h4]

theorem C3_witness :
    AddressDeduper.is_address_dupe expandW recNoStreet recW = none
    ∧ AddressDeduper.is_address_dupe expandW recW recW =
        some (AddressDeduper.component_equals expandW (recW.street.getD "")
            (recW.street.getD "") ComponentType.address_street true
          && AddressDeduper.component_equals expandW (recW.house_number.getD "")
            (recW.house_number.getD "") ComponentType.address_house_number true) :=
  ⟨(C3_is_address_dupe_characterization expandW recNoStreet recW).1
      (Or.inl (by decide)),
    (C3_is_address_dupe_characterization expandW recW recW).2
      (by decide) (by decide) (by decide) (by decide)⟩

/-- C8: the source's content_tokens does not remove parenthetical substrings
even when ignore_parentheticals is enabled (the stripped string is bound to a
dead local), so a token coming from inside a parenthetical survives; the
documented behaviour, modelled by content_tokens_spec, removes it. -/
theorem C8_content_tokens_keeps_parentheticals :
    NameDeduper.content_tokens true "Kangaroo Point (NSW)" =
      ["kangaroo", "point", "(nsw)"]
    ∧ NameDeduper.content_tokens_spec true "Kangaroo Point (NSW)" =
      ["kangaroo", "point"] := by
  constructor <;> decide

/-- C4: near_dupe_hashes yields no blocking keys when either coordinate is
absent, or the latitude is not strictly inside (-90, 90), or the coordinate
pair is the (0, 0) sentinel. -/
theorem C4_no_keys_on_bad_coordinates (gh : GeoHasher) (expand : Expand)
    (addr : AddressRecord) (p : Nat)
    (h : addr.latitude = none ∨ addr.longitude = none ∨
      ∃ lat lon, addr.latitude = some lat ∧ addr.longitude = some lon ∧
        (lat ≥ 90 ∨ lat ≤ -90 ∨ (isclose lat 0 = true ∧ isclose lon 0 = true))) :
    AddressDeduper.near_dupe_hashes gh expand addr p = [] := by
  rcases h with h | h | ⟨lat, lon, hlat, hlon, hbad⟩
  · cases hlon : addr.longitude <;>
      simp [AddressDeduper.near_dupe_hashes, near_dupe_hashes_generic, h, hlon]
  · cases hlat : addr.latitude <;>
      simp [AddressDeduper.near_dupe_hashes, near_dupe_hashes_generic, h, hlat]
  · simp only [AddressDeduper.near_dupe_hashes, near_dupe_hashes_generic, hlat, hlon]
    rcases hbad with hb | hb | ⟨hb1, hb2⟩
    · simp [hb]
    · simp [hb]
    · simp [hb1, hb2]

theorem C4_witness :
    AddressDeduper.near_dupe_hashes ghW expandW recLat90 7 = [] :=
  C4_no_keys_on_bad_coordinates ghW expandW recLat90 7
    (Or.inr (Or.inr ⟨90, 20, rfl, rfl, Or.inl (by decide)⟩))

/-- C10: even when the coordinates satisfy every emission precondition,
near_dupe_hashes yields no keys when street or house_number is missing or
empty: component_expansions is then the empty tuple, and the generator
returns without consulting the geo hasher (the result is independent of gh,
which the statement quantifies over). -/
theorem C10_no_keys_without_street_or_house_number (gh : GeoHasher)
    (expand : Expand) (addr : AddressRecord) (p : Nat) (lat lon : Rat)
    (hlat : addr.latitude = some lat) (hlon : addr.longitude = some lon)
    (hlt : lat < 90) (hgt : -90 < lat)
    (hsent : ¬(isclose lat 0 = true ∧ isclose lon 0 = true))
    (hmiss : truthy addr.street = false ∨ truthy addr.house_number = false) :
    AddressDeduper.component_expansions expand addr = []
    ∧ AddressDeduper.near_dupe_hashes gh expand addr p = [] := by
  have hexp : AddressDeduper.component_expansions expand addr = [] := by
    rcases hmiss with h | h <;> simp [AddressDeduper.component_expansions, h]
  refine ⟨hexp, ?_⟩
  simp [AddressDeduper.near_dupe_hashes, near_dupe_hashes_generic, hlat, hlon, hexp]

theorem C10_witness :
    AddressDeduper.component_expansions expandW recNoStreet = []
    ∧ AddressDeduper.near_dupe_hashes ghW expandW recNoStreet 7 = [] :=
  C10_no_keys_without_street_or_house_number ghW expandW recNoStreet 7 10 20
    rfl rfl (by decide) (by decide) (by decide) (Or.inl (by decide))

theorem listProduct_one (B : List String) :
    listProduct [B] = B.map fun b => [b] := by
  induction B with
  | nil => rfl
  | cons b bs ih => simpa [listProduct, List.flatMap_cons] using ih

theorem listProduct_two (A B : List String) :
    listProduct [A, B] = A.flatMap fun a => B.map fun b => [a, b] := by
  show (A.flatMap fun x => (listProduct [B]).map fun t => x :: t) = _
  rw [listProduct_one]
  simp only [List.map_map]
  rfl

theorem map_join_product3 (cells A B : List String) :
    (listProduct [cells, A, B]).map (fun keys => String.intercalate "|" keys) =
      cells.flatMap fun g => A.flatMap fun a => B.map fun b =>
        String.intercalate "|" [g, a, b] := by
  show ((cells.flatMap fun x => (listProduct [A, B]).map fun t => x :: t).map
    fun keys => String.intercalate "|" keys) = _
  rw [listProduct_two]
  simp only [List.map_flatMap, List.map_map]
  rfl

/-- C5: when the emission preconditions hold, near_dupe_hashes truncates the
encoded geohash to the given precision, forms that cell plus its neighbors (9
cells when the geo hasher returns 8 neighbors), and yields exactly one key per
tuple of the Cartesian product of the cells with the street expansions and the
house-number expansions, each key joined with the "|" delimiter. -/
theorem C5_near_dupe_hashes_is_product (gh : GeoHasher) (expand : Expand)
    (addr : AddressRecord) (p : Nat) (lat lon : Rat) (se hne : List String)
    (hlat : addr.latitude = some lat) (hlon : addr.longitude = some lon)
    (hlt : lat < 90) (hgt : -90 < lat)
    (hsent : ¬(isclose lat 0 = true ∧ isclose lon 0 = true))
    (hexp : AddressDeduper.component_expansions expand addr = [se, hne])
    (hany : se ≠ [] ∨ hne ≠ [])
    (hnb : (gh.neighbors ((gh.encode lat lon).take p)).length = 8) :
    AddressDeduper.near_dupe_hashes gh expand addr p =
      ((gh.encode lat lon).take p :: gh.neighbors ((gh.encode lat lon).take p)).flatMap
        (fun g => se.flatMap fun s => hne.map fun h =>
          String.intercalate "|" [g, s, h])
    ∧ ((gh.encode lat lon).take p
        :: gh.neighbors ((gh.encode lat lon).take p)).length = 9 := by
  constructor
  · simp only [AddressDeduper.near_dupe_hashes, near_dupe_hashes_generic, hlat,
      hlon, hexp]
    have h1 : (isclose lat 0 && isclose lon 0) = false := by
      cases hA : isclose lat 0 <;> cases hB : isclose lon 0 <;> simp_all
    have h2 : decide (lat ≥ 90) = false := decide_eq_false (not_le.mpr hlt)
    have h3 : decide (lat ≤ -90) = false := decide_eq_false (not_le.mpr hgt)
    have h4 : ([se, hne].any fun l => !l.isEmpty) = true := by
      rcases hany with h | h <;> cases se <;> cases hne <;> simp_all
    rw [h1, h2, h3, h4]
    simp only [Bool.or_false, Bool.false_or, Bool.not_true, if_false]
    exact map_join_product3 _ _ _
  · simp [hnb]

theorem C5_witness :
    AddressDeduper.near_dupe_hashes ghW expandW recW 7 =
      ((ghW.encode 10 20).take 7 :: ghW.neighbors ((ghW.encode 10 20).take 7)).flatMap
        (fun g => ["Main St"].flatMap fun s => ["12"].map fun h =>
          String.intercalate "|" [g, s, h])
    ∧ ((ghW.encode 10 20).take 7
        :: ghW.neighbors ((ghW.encode 10 20).take 7)).length = 9 :=
  C5_near_dupe_hashes_is_product ghW expandW recW 7 10 20 ["Main St"] ["12"]
    rfl rfl (by decide) (by decide) (by decide) (by decide)
    (Or.inl (by decide)) (by decide)

/-- C7: component_equals with whitespace normalization enabled (the default)
is true exactly when some expansion of the first value and some expansion of
the second value agree after all whitespace is stripped, i.e. when the two
whitespace-stripped expansion sets intersect. -/
theorem C7_component_equals_iff (expand : Expand) (c1 c2 : String)
    (t : ComponentType) :
    AddressDeduper.component_equals expand c1 c2 t true = true ↔
      ∃ e1 ∈ expand c1 t, ∃ e2 ∈ expand c2 t,
        stripWhitespace e1 = stripWhitespace e2 := by
  simp [AddressDeduper.component_equals, intersects, List.any_eq_true,
    List.mem_map]

/-- C9: VenueDeduper.near_dupe_hashes invoked without an explicit precision
argument does not use the coarser venue default of 6: the inherited method's
default argument was bound to AddressDeduper's 7 when the function was
defined, so the no-argument call equals the precision-7 call and differs from
the precision-6 call on a concrete venue record, even though the (dead)
VenueDeduper constant is indeed strictly less than 7. -/
theorem C9_venue_default_precision_is_address_default :
    VenueDeduper.near_dupe_hashes_default ghW expandW dmW recW =
      VenueDeduper.near_dupe_hashes ghW expandW dmW recW
        AddressDeduper.DEFAULT_GEOHASH_PRECISION
    ∧ VenueDeduper.near_dupe_hashes_default ghW expandW dmW recW ≠
      VenueDeduper.near_dupe_hashes ghW expandW dmW recW
        VenueDeduper.DEFAULT_GEOHASH_PRECISION
    ∧ VenueDeduper.DEFAULT_GEOHASH_PRECISION
        < AddressDeduper.DEFAULT_GEOHASH_PRECISION :=
  ⟨rfl, by decide, by decide⟩

theorem isEmpty_eq_of_perm {l1 l2 : List String} (h : l1.Perm l2) :
    l1.isEmpty = l2.isEmpty := by
  have := h.length_eq
  cases l1 <;> cases l2 <;> simp_all

theorem any_not_isEmpty_congr {ls1 ls2 : List (List String)}
    (h : List.Forall₂ List.Perm ls1 ls2) :
    (ls1.any fun l => !l.isEmpty) = (ls2.any fun l => !l.isEmpty) := by
  induction h with
  | nil => rfl
  | cons h hs ih => simp [List.any_cons, ih, isEmpty_eq_of_perm h]

theorem listProduct_perm {ls1 ls2 : List (List String)}
    (h : List.Forall₂ List.Perm ls1 ls2) :
    (listProduct ls1).Perm (listProduct ls2) := by
  induction h with
  | nil => exact List.Perm.refl _
  | cons h hs ih =>
    simp only [listProduct]
    exact (h.flatMap_right _).trans
      (List.Perm.flatMap_left _ fun a _ => ih.map _)

theorem near_dupe_hashes_generic_perm
    (compExp1 compExp2 : AddressRecord → List (List String))
    (gh1 gh2 : GeoHasher) (addr : AddressRecord) (p : Nat)
    (henc : ∀ lat lon, gh1.encode lat lon = gh2.encode lat lon)
    (hnb : ∀ g, (g :: gh1.neighbors g).Perm (g :: gh2.neighbors g))
    (hf : List.Forall₂ List.Perm (compExp1 addr) (compExp2 addr)) :
    (near_dupe_hashes_generic compExp1 gh1 addr p).Perm
      (near_dupe_hashes_generic compExp2 gh2 addr p) := by
  unfold near_dupe_hashes_generic
  cases hlat : addr.latitude with
  | none => exact List.Perm.refl _
  | some lat =>
    cases hlon : addr.longitude with
    | none => exact List.Perm.refl _
    | some lon =>
      simp only
      rw [any_not_isEmpty_congr hf, henc]
      cases hg : ((isclose lat 0 && isclose lon 0) || decide (lat ≥ 90)
          || decide (lat ≤ -90)
          || !((compExp2 addr).any fun l => !l.isEmpty)) with
      | true => simp [hg]
      | false =>
        simp only [hg, if_false, Bool.false_eq_true]
        exact (listProduct_perm (List.Forall₂.cons (hnb _) hf)).map _

/-- C6: the set of keys produced by near_dupe_hashes does not depend on the
enumeration order of the geo-cells or of the expansion lists: for two geo
hashers with the same encoding whose 9-cell enumerations are permutations of
each other, and two expanders whose expansion lists are permutations of each
other, every key is in the one output exactly when it is in the other. -/
theorem C6_near_dupe_hashes_set_invariant (gh1 gh2 : GeoHasher)
    (expand1 expand2 : Expand) (addr : AddressRecord) (p : Nat)
    (henc : ∀ lat lon, gh1.encode lat lon = gh2.encode lat lon)
    (hnb : ∀ g, (g :: gh1.neighbors g).Perm (g :: gh2.neighbors g))
    (hexp : ∀ c t, (expand1 c t).Perm (expand2 c t)) :
    ∀ k, k ∈ AddressDeduper.near_dupe_hashes gh1 expand1 addr p ↔
      k ∈ AddressDeduper.near_dupe_hashes gh2 expand2 addr p := by
  have hf : List.Forall₂ List.Perm
      (AddressDeduper.component_expansions expand1 addr)
      (AddressDeduper.component_expansions expand2 addr) := by
    unfold AddressDeduper.component_expansions
    cases hb : (truthy addr.street && truthy addr.house_number) with
    | false =>
      simp only [hb, Bool.not_false, if_true]
      exact List.Forall₂.nil
    | true =>
      simp only [hb, Bool.not_true, if_false, Bool.false_eq_true]
      exact List.Forall₂.cons (hexp _ _)
        (List.Forall₂.cons (hexp _ _) List.Forall₂.nil)
  exact fun k =>
    (near_dupe_hashes_generic_perm _ _ gh1 gh2 addr p henc hnb hf).mem_iff

/-- A variant of ghW that enumerates its neighbor cells in reverse order. -/
def ghWrev : GeoHasher :=
  { encode := ghW.encode, neighbors := fun g => (ghW.neighbors g).reverse }

theorem C6_witness :
    "abcdefgt|Main St|12" ∈ AddressDeduper.near_dupe_hashes ghW expandW recW 7 ↔
      "abcdefgt|Main St|12" ∈ AddressDeduper.near_dupe_hashes ghWrev expandW recW 7 :=
  C6_near_dupe_hashes_set_invariant ghW ghWrev expandW expandW recW 7
    (fun _ _ => rfl)
    (fun g => List.Perm.cons g (List.reverse_perm (ghW.neighbors g)).symm)
    (fun _ _ => List.Perm.refl _) "abcdefgt|Main St|12"
